import Mathlib

/-!
Shallow embedding of the virtual-pet core in `src/script.js`.

Conventions of the embedding:
* JS numbers that the program treats as integers (the four vitals and the
  millisecond timestamps) are modelled as `Int`.
* `Math.floor(x / 60000)` on an integer `x` with the positive divisor `60000`
  is floor division, which for a positive divisor coincides with Lean's
  `Int` division `/`.
* The global mutable `state` is made explicit: every handler becomes a pure
  function `StatVector → StatVector`; `Date.now()` is passed in as `now`.
* DOM writes, messages and animations have no effect on `state` and are
  dropped, except that `render()` writes `state.mood`, which is kept
  (`renderMood`).
-/

/-- The pet-state object, the shape produced by `defaultState()` in the source. -/
@[ext] structure StatVector where
  health : Int
  hunger : Int
  energy : Int
  clean : Int
  mood : String
  createdAt : Int
  lastTickAt : Int
  isSleeping : Bool
  paused : Bool
deriving Repr, DecidableEq

/-- `clamp(n, min, max)`: `Math.max(min, Math.min(max, n))`. -/
def clamp (n lo hi : Int) : Int := max lo (min hi n)

/-- `defaultState()`; `Date.now()` is the parameter `now`. -/
def defaultState (now : Int) : StatVector :=
  { health := 100
    hunger := 0
    energy := 80
    clean := 80
    mood := "Happy"
    createdAt := now
    lastTickAt := now
    isSleeping := false
    paused := false }

/-- `computeMoodAndCondition(s)`: the mood/condition classifier, an if-chain. -/
def computeMoodAndCondition (s : StatVector) : String × String :=
  if s.isSleeping then ("Sleepy", "Sleeping...")
  else if s.health ≤ 25 then ("Sick", "Needs care!")
  else if s.hunger ≥ 75 then ("Hungry", "Feed me!")
  else if s.energy ≤ 25 then ("Sleepy", "Very tired")
  else if s.clean ≤ 25 then ("Sick", "Dirty & cranky")
  else if s.health ≥ 70 ∧ s.hunger ≤ 40 ∧ s.energy ≥ 40 then ("Happy", "Great")
  else ("Okay", "Doing fine")

/-- `applyNaturalDecay(s)`: one decay tick, pure. -/
def applyNaturalDecay (s : StatVector) : StatVector :=
  if s.isSleeping then
    { s with
      hunger := clamp (s.hunger + 2) 0 100
      energy := clamp (s.energy + 6) 0 100
      clean := clamp (s.clean - 1) 0 100
      health := clamp (s.health + 1) 0 100 }
  else
    let next : StatVector :=
      { s with
        hunger := clamp (s.hunger + 3) 0 100
        energy := clamp (s.energy - 2) 0 100
        clean := clamp (s.clean - 1) 0 100 }
    let next :=
      if next.hunger ≥ 80 then { next with health := clamp (next.health - 3) 0 100 }
      else if next.hunger ≥ 60 then { next with health := clamp (next.health - 1) 0 100 }
      else next
    let next :=
      if next.energy ≤ 10 then { next with health := clamp (next.health - 2) 0 100 } else next
    let next :=
      if next.clean ≤ 10 then { next with health := clamp (next.health - 2) 0 100 } else next
    next

/-- The state effect of `render()`: it recomputes and stores `state.mood`
(all its other work is DOM output and the best-effort save). -/
def renderMood (s : StatVector) : StatVector :=
  { s with mood := (computeMoodAndCondition s).1 }

/-- `feed()`. -/
def feed (s : StatVector) : StatVector :=
  if s.health ≤ 0 then s
  else
    renderMood
      { s with
        hunger := clamp (s.hunger - 25) 0 100
        clean := clamp (s.clean - 5) 0 100
        energy := clamp (s.energy + 5) 0 100 }

/-- `play()`. -/
def play (s : StatVector) : StatVector :=
  if s.health ≤ 0 then s
  else if s.energy ≤ 10 then s
  else
    renderMood
      { s with
        energy := clamp (s.energy - 18) 0 100
        hunger := clamp (s.hunger + 8) 0 100
        clean := clamp (s.clean - 10) 0 100
        health := clamp (s.health + 3) 0 100 }

/-- `toggleSleep()`. -/
def toggleSleep (s : StatVector) : StatVector :=
  if s.health ≤ 0 then s
  else renderMood { s with isSleeping := !s.isSleeping }

/-- `heal()`. -/
def heal (s : StatVector) : StatVector :=
  if s.health ≤ 0 then s
  else if s.energy ≤ 8 then s
  else
    renderMood
      { s with
        health := clamp (s.health + 18) 0 100
        clean := clamp (s.clean + 12) 0 100
        energy := clamp (s.energy - 10) 0 100 }

/-- `togglePause()` (note: not guarded by `health <= 0`). -/
def togglePause (s : StatVector) : StatVector :=
  renderMood { s with paused := !s.paused }

/-- `resetAll()`: drops the snapshot (external) and replaces the state. -/
def resetAll (now : Int) : StatVector := defaultState now

/-- The body of the `setInterval` callback installed by `startTicking()`:
skip when paused, decay, stamp `lastTickAt`, auto-wake, terminal check,
render. -/
def tick (now : Int) (s : StatVector) : StatVector :=
  if s.paused then s
  else
    let s1 := applyNaturalDecay s
    let s1 := { s1 with lastTickAt := now }
    let s1 :=
      if s1.isSleeping ∧ s1.energy ≥ 98 then { s1 with isSleeping := false } else s1
    let s1 :=
      if s1.health ≤ 0 then { s1 with health := 0, paused := true, isSleeping := false }
      else s1
    renderMood s1

/-- A decoded snapshot record: every field of the stored JSON object is
optional (a legacy or hand-edited snapshot may omit any of them). -/
structure Snapshot where
  health : Option Int
  hunger : Option Int
  energy : Option Int
  clean : Option Int
  mood : Option String
  createdAt : Option Int
  lastTickAt : Option Int
  isSleeping : Option Bool
  paused : Option Bool
deriving Repr, DecidableEq

/-- The spread-merge `{ ...defaultState(), ...parsed }` in `loadState`:
each field of the snapshot, when present, overrides the default. -/
def mergeDefaults (p : Snapshot) (now : Int) : StatVector :=
  let d := defaultState now
  { health := p.health.getD d.health
    hunger := p.hunger.getD d.hunger
    energy := p.energy.getD d.energy
    clean := p.clean.getD d.clean
    mood := p.mood.getD d.mood
    createdAt := p.createdAt.getD d.createdAt
    lastTickAt := p.lastTickAt.getD d.lastTickAt
    isSleeping := p.isSleeping.getD d.isSleeping
    paused := p.paused.getD d.paused }

/-- `loadState()`. The interaction with the store and the JSON decoder is
made explicit in the argument: `none` is an absent raw value (`!raw`),
`some none` is a decode or shape failure (`JSON.parse` throwing, or
`parsed` not a non-null object), `some (some p)` is a decoded record.
`minutes` is `Math.min(60, Math.floor((now - last) / 60000))`; the replay
loop runs `minutes` times (zero times when `minutes` is negative). -/
def loadState (stored : Option (Option Snapshot)) (now : Int) : Option StatVector :=
  match stored with
  | none => none
  | some none => none
  | some (some parsed) =>
    let last := parsed.lastTickAt.getD now
    let minutes := (min 60 ((now - last) / 60000)).toNat
    let fixed := mergeDefaults parsed now
    let fixed := applyNaturalDecay^[minutes] fixed
    some { fixed with lastTickAt := now }

/-- The boot assignment `let state = loadState() ?? defaultState()`. -/
def initialState (stored : Option (Option Snapshot)) (now : Int) : StatVector :=
  (loadState stored now).getD (defaultState now)

/-- The snapshot written by `saveState()` for a live state: every field
present. -/
def toSnapshot (s : StatVector) : Snapshot :=
  { health := some s.health
    hunger := some s.hunger
    energy := some s.energy
    clean := some s.clean
    mood := some s.mood
    createdAt := some s.createdAt
    lastTickAt := some s.lastTickAt
    isSleeping := some s.isSleeping
    paused := some s.paused }

/-! ## Spec-side definitions

These definitions are transcribed from the specification's wording, to be
compared with the source-side `applyNaturalDecay` and
`computeMoodAndCondition`. -/

/-- The decay step as the spec states it: fixed deltas, then — awake only —
one cumulative health penalty computed from the post-delta vitals, every
vital clamped to `[0,100]`. -/
def decaySpec (s : StatVector) : StatVector :=
  if s.isSleeping then
    { s with
      hunger := clamp (s.hunger + 2) 0 100
      energy := clamp (s.energy + 6) 0 100
      clean := clamp (s.clean - 1) 0 100
      health := clamp (s.health + 1) 0 100 }
  else
    let hunger := clamp (s.hunger + 3) 0 100
    let energy := clamp (s.energy - 2) 0 100
    let clean := clamp (s.clean - 1) 0 100
    let penalty :=
      (if hunger ≥ 80 then 3 else if hunger ≥ 60 then 1 else 0) +
      (if energy ≤ 10 then 2 else 0) +
      (if clean ≤ 10 then 2 else 0)
    { s with
      hunger := hunger
      energy := energy
      clean := clean
      health := clamp (s.health - penalty) 0 100 }

/-- First-match evaluation of a prioritized rule list. -/
def firstMatch (rules : List (Bool × String × String)) (dflt : String × String) :
    String × String :=
  match rules with
  | [] => dflt
  | (b, r) :: rest => if b then r else firstMatch rest dflt

/-- The classifier as the spec states it: a strict priority list, first
match wins. -/
def classifySpec (s : StatVector) : String × String :=
  firstMatch
    [(s.isSleeping, "Sleepy", "Sleeping..."),
     (decide (s.health ≤ 25), "Sick", "Needs care!"),
     (decide (s.hunger ≥ 75), "Hungry", "Feed me!"),
     (decide (s.energy ≤ 25), "Sleepy", "Very tired"),
     (decide (s.clean ≤ 25), "Sick", "Dirty & cranky"),
     (decide (s.health ≥ 70 ∧ s.hunger ≤ 40 ∧ s.energy ≥ 40), "Happy", "Great")]
    ("Okay", "Doing fine")

/-! ## Derived predicates and operation traces -/

/-- All four vitals lie in `[0,100]` (the data-model invariant of the spec). -/
def inRange (s : StatVector) : Prop :=
  0 ≤ s.health ∧ s.health ≤ 100 ∧
  0 ≤ s.hunger ∧ s.hunger ≤ 100 ∧
  0 ≤ s.energy ∧ s.energy ≤ 100 ∧
  0 ≤ s.clean ∧ s.clean ≤ 100

instance (s : StatVector) : Decidable (inRange s) := by
  unfold inRange; infer_instance

/-- The terminal "needs reset" condition the scheduler latches into. -/
def terminal (s : StatVector) : Prop :=
  s.health = 0 ∧ s.isSleeping = false

instance (s : StatVector) : Decidable (terminal s) := by
  unfold terminal; infer_instance

/-- One user- or timer-triggered operation other than reset. -/
inductive PetOp where
  | tick (now : Int)
  | feed
  | play
  | toggleSleep
  | heal
  | togglePause

/-- Dispatch one operation to the corresponding handler of the source. -/
def runOp (op : PetOp) (s : StatVector) : StatVector :=
  match op with
  | .tick now => tick now s
  | .feed => feed s
  | .play => play s
  | .toggleSleep => toggleSleep s
  | .heal => heal s
  | .togglePause => togglePause s

/-- A whole interleaving of ticks and actions, applied left to right. -/
def runOps (ops : List PetOp) (s : StatVector) : StatVector :=
  ops.foldl (fun s op => runOp op s) s

/-- A dead pet used as a concrete input: health zero, everything else dire. -/
def deadVec : StatVector :=
  { health := 0
    hunger := 100
    energy := 0
    clean := 0
    mood := "Sick"
    createdAt := 0
    lastTickAt := 0
    isSleeping := false
    paused := false }

/-- A dead and exhausted pet used as a concrete input for the guards. -/
def tiredVec : StatVector :=
  { health := 0
    hunger := 50
    energy := 5
    clean := 50
    mood := "Okay"
    createdAt := 0
    lastTickAt := 0
    isSleeping := false
    paused := false }

/-! ## Helper lemmas -/

/-- The decay function changes no field besides the four vitals. -/
theorem applyNaturalDecay_flags (s : StatVector) :
    (applyNaturalDecay s).isSleeping = s.isSleeping ∧
    (applyNaturalDecay s).paused = s.paused ∧
    (applyNaturalDecay s).createdAt = s.createdAt ∧
    (applyNaturalDecay s).lastTickAt = s.lastTickAt ∧
    (applyNaturalDecay s).mood = s.mood := by
  unfold applyNaturalDecay
  split
  · simp
  · dsimp only
    split_ifs <;> simp

/-- An awake pet at zero health stays at zero health through one decay step. -/
theorem applyNaturalDecay_health_zero (s : StatVector) (h0 : s.health = 0)
    (hs : s.isSleeping = false) : (applyNaturalDecay s).health = 0 := by
  unfold applyNaturalDecay
  split
  · simp_all
  · dsimp only
    split_ifs <;> simp only [clamp] <;> omega

/-- The decay function neither reads nor writes `lastTickAt`. -/
theorem applyNaturalDecay_lastTickAt_set (s : StatVector) (t : Int) :
    applyNaturalDecay { s with lastTickAt := t } =
      { applyNaturalDecay s with lastTickAt := t } := by
  unfold applyNaturalDecay
  dsimp only
  split_ifs <;> rfl

/-- Iterated decay neither reads nor writes `lastTickAt`. -/
theorem applyNaturalDecay_iterate_lastTickAt (s : StatVector) (t : Int) (n : ℕ) :
    applyNaturalDecay^[n] { s with lastTickAt := t } =
      { applyNaturalDecay^[n] s with lastTickAt := t } := by
  induction n with
  | zero => rfl
  | succ n ih =>
    rw [Function.iterate_succ_apply', ih, applyNaturalDecay_lastTickAt_set,
      Function.iterate_succ_apply']

/-- One decay step keeps the vitals in `[0,100]`. -/
theorem applyNaturalDecay_inRange (s : StatVector) (h : inRange s) :
    inRange (applyNaturalDecay s) := by
  unfold inRange at *
  unfold applyNaturalDecay
  split
  · dsimp only
    simp only [clamp]
    omega
  · dsimp only
    split_ifs <;> simp only [clamp] at * <;> omega

/-- Iterated decay keeps the vitals in `[0,100]`. -/
theorem applyNaturalDecay_iterate_inRange (s : StatVector) (h : inRange s) (n : ℕ) :
    inRange (applyNaturalDecay^[n] s) := by
  induction n with
  | zero => simpa
  | succ n ih =>
    rw [Function.iterate_succ_apply']
    exact applyNaturalDecay_inRange _ ih

/-- Merging a fully populated snapshot over the defaults reproduces the
state it was taken from. -/
theorem mergeDefaults_toSnapshot (s : StatVector) (now : Int) :
    mergeDefaults (toSnapshot s) now = s := rfl

/-- A tick from a terminal state lands in a terminal state. -/
theorem terminal_tick (now : Int) (s : StatVector) (h : terminal s) :
    terminal (tick now s) := by
  obtain ⟨h0, hs⟩ := h
  have hd0 : (applyNaturalDecay s).health = 0 := applyNaturalDecay_health_zero s h0 hs
  have hds : (applyNaturalDecay s).isSleeping = false :=
    hs ▸ (applyNaturalDecay_flags s).1
  unfold tick
  split
  · exact ⟨h0, hs⟩
  · dsimp only
    split_ifs <;> unfold renderMood terminal <;> dsimp only <;> simp_all

/-- In a terminal state the four guarded actions are identities and the
pause toggle keeps the state terminal. -/
theorem terminal_actions (s : StatVector) (h : terminal s) :
    feed s = s ∧ play s = s ∧ toggleSleep s = s ∧ heal s = s ∧
    terminal (togglePause s) ∧ (togglePause s).health = 0 := by
  obtain ⟨h0, hs⟩ := h
  refine ⟨?_, ?_, ?_, ?_, ?_, ?_⟩
  · simp [feed, h0]
  · simp [play, h0]
  · simp [toggleSleep, h0]
  · simp [heal, h0]
  · unfold togglePause renderMood terminal
    dsimp only
    exact ⟨h0, hs⟩
  · unfold togglePause renderMood
    dsimp only
    exact h0

/-- Every operation other than reset preserves the terminal condition. -/
theorem terminal_runOp (op : PetOp) (s : StatVector) (h : terminal s) :
    terminal (runOp op s) := by
  cases op with
  | tick now => exact terminal_tick now s h
  | feed =>
    unfold runOp
    rw [(terminal_actions s h).1]
    exact h
  | play =>
    unfold runOp
    rw [(terminal_actions s h).2.1]
    exact h
  | toggleSleep =>
    unfold runOp
    rw [(terminal_actions s h).2.2.1]
    exact h
  | heal =>
    unfold runOp
    rw [(terminal_actions s h).2.2.2.1]
    exact h
  | togglePause => exact (terminal_actions s h).2.2.2.2.1

/-- Every interleaving of ticks and non-reset actions preserves the terminal
condition. -/
theorem terminal_runOps (ops : List PetOp) (s : StatVector) (h : terminal s) :
    terminal (runOps ops s) := by
  induction ops generalizing s with
  | nil => exact h
  | cons op rest ih => exact ih (runOp op s) (terminal_runOp op s h)

/-- An unpaused tick whose decay leaves health at or below zero latches the
terminal condition. -/
theorem tick_terminalizes (now : Int) (s : StatVector) (hp : s.paused = false)
    (hh : (applyNaturalDecay s).health ≤ 0) :
    (tick now s).health = 0 ∧ (tick now s).paused = true ∧
    (tick now s).isSleeping = false := by
  unfold tick
  split
  · simp_all
  · dsimp only
    split_ifs <;> unfold renderMood <;> dsimp only <;> exact ⟨rfl, rfl, rfl⟩

/-! ## Claim theorems -/

/-- C1: `advance` applies exactly the spec's fixed deltas: sleeping gives
`hunger += 2`, `energy += 6`, `clean -= 1`, `health += 1` with no
penalties; awake gives `hunger += 3`, `energy -= 2`, `clean -= 1` and then
the cumulative health penalties computed from the post-delta values
(`-3` for `hunger >= 80`, else `-1` for `hunger >= 60`; `-2` for
`energy <= 10`; `-2` for `clean <= 10`), every vital clamped to `[0,100]`
(for health within its data-model range `[0,100]`). -/
theorem decay_matches_spec (s : StatVector) (h0 : 0 ≤ s.health) (h1 : s.health ≤ 100) :
    applyNaturalDecay s = decaySpec s := by
  unfold applyNaturalDecay decaySpec
  split
  · rfl
  · dsimp only
    split_ifs <;>
      (refine StatVector.ext ?_ ?_ ?_ ?_ ?_ ?_ ?_ ?_ ?_ <;>
        first
        | rfl
        | (simp only [clamp] at *; omega))

/-- Witness for `decay_matches_spec` at the default state. -/
theorem decay_matches_spec_witness :
    0 ≤ (defaultState 0).health ∧ (defaultState 0).health ≤ 100 ∧
    applyNaturalDecay (defaultState 0) = decaySpec (defaultState 0) :=
  ⟨by decide, by decide, decay_matches_spec (defaultState 0) (by decide) (by decide)⟩

/-- C2: starting from any state whose vitals are in `[0,100]`, each of
`advance`, `feed`, `play`, `heal`, `toggleSleep`, `togglePause`, `reset`
and `replay` produces a state whose vitals are again in `[0,100]`. -/
theorem operations_preserve_range (s : StatVector) (now : Int) (h : inRange s) :
    inRange (applyNaturalDecay s) ∧ inRange (feed s) ∧ inRange (play s) ∧
    inRange (heal s) ∧ inRange (toggleSleep s) ∧ inRange (togglePause s) ∧
    inRange (resetAll now) ∧
    inRange (initialState (some (some (toSnapshot s))) now) := by
  refine ⟨applyNaturalDecay_inRange s h, ?_, ?_, ?_, ?_, ?_, ?_, ?_⟩
  · unfold inRange at *
    unfold feed renderMood
    split_ifs <;> (try dsimp only) <;> (try simp only [clamp] at *) <;> omega
  · unfold inRange at *
    unfold play renderMood
    split_ifs <;> (try dsimp only) <;> (try simp only [clamp] at *) <;> omega
  · unfold inRange at *
    unfold heal renderMood
    split_ifs <;> (try dsimp only) <;> (try simp only [clamp] at *) <;> omega
  · unfold inRange at *
    unfold toggleSleep renderMood
    split_ifs <;> (try dsimp only) <;> omega
  · unfold inRange at h ⊢
    unfold togglePause renderMood
    dsimp only
    omega
  · unfold inRange resetAll defaultState
    dsimp only
    omega
  · unfold initialState
    simp only [loadState]
    rw [mergeDefaults_toSnapshot]
    have hIR := applyNaturalDecay_iterate_inRange s h
      ((min 60 ((now - ((toSnapshot s).lastTickAt.getD now)) / 60000)).toNat)
    unfold inRange at hIR ⊢
    simp only [Option.getD_some]
    try dsimp only
    exact hIR

/-- Witness for `operations_preserve_range` at the default state. -/
theorem operations_preserve_range_witness :
    inRange (defaultState 0) ∧
    (inRange (applyNaturalDecay (defaultState 0)) ∧ inRange (feed (defaultState 0)) ∧
      inRange (play (defaultState 0)) ∧ inRange (heal (defaultState 0)) ∧
      inRange (toggleSleep (defaultState 0)) ∧ inRange (togglePause (defaultState 0)) ∧
      inRange (resetAll 0) ∧
      inRange (initialState (some (some (toSnapshot (defaultState 0)))) 0)) :=
  ⟨by decide, operations_preserve_range (defaultState 0) 0 (by decide)⟩

/-- C3: the classifier is the spec's strict priority list (first match
wins), and in particular a sick and starving awake pet is reported
("Sick", "Needs care!"). -/
theorem classifier_priority :
    (∀ s, computeMoodAndCondition s = classifySpec s) ∧
    computeMoodAndCondition { health := 20, hunger := 90, energy := 50, clean := 50,
                              mood := "Okay", createdAt := 0, lastTickAt := 0,
                              isSleeping := false, paused := false }
      = ("Sick", "Needs care!") := by
  constructor
  · intro s
    unfold computeMoodAndCondition classifySpec
    repeat' split <;> simp_all [firstMatch]
  · rfl

/-- C4: an unpaused tick whose decay leaves `health <= 0` clamps health to
0, forces `paused := true` and `isSleeping := false`, and from then on any
interleaving of ticks and non-reset actions leaves `health` at 0. -/
theorem terminal_latches (now : Int) (s : StatVector) (hp : s.paused = false)
    (hh : (applyNaturalDecay s).health ≤ 0) :
    (tick now s).health = 0 ∧ (tick now s).paused = true ∧
    (tick now s).isSleeping = false ∧
    ∀ ops : List PetOp, (runOps ops (tick now s)).health = 0 := by
  obtain ⟨a, b, c⟩ := tick_terminalizes now s hp hh
  exact ⟨a, b, c, fun ops => (terminal_runOps ops (tick now s) ⟨a, c⟩).1⟩

/-- Witness for `terminal_latches`: a dying pet stays at zero health
through a concrete interleaving of all non-reset operations. -/
theorem terminal_latches_witness :
    deadVec.paused = false ∧ (applyNaturalDecay deadVec).health ≤ 0 ∧
    ((tick 1 deadVec).health = 0 ∧ (tick 1 deadVec).paused = true ∧
      (tick 1 deadVec).isSleeping = false ∧
      (runOps [PetOp.feed, PetOp.togglePause, PetOp.tick 2, PetOp.play, PetOp.heal,
        PetOp.toggleSleep, PetOp.tick 3] (tick 1 deadVec)).health = 0) :=
  ⟨by decide, by decide, by
    obtain ⟨a, b, c, d⟩ := terminal_latches 1 deadVec (by decide) (by decide)
    exact ⟨a, b, c, d _⟩⟩

/-- C5: replay caps catch-up at 60 steps: with the same load time `now`, a
snapshot that is at least 60 minutes stale replays to exactly the same
state as the same snapshot aged exactly 60 minutes. -/
theorem replay_cap_sixty (s : StatVector) (now : Int)
    (h : 3600000 ≤ now - s.lastTickAt) :
    loadState (some (some (toSnapshot s))) now =
      loadState (some (some (toSnapshot { s with lastTickAt := now - 3600000 }))) now := by
  have hL : (min 60 ((now - s.lastTickAt) / 60000)).toNat = 60 := by omega
  have hR : (min 60 ((now - (now - 3600000)) / 60000)).toNat = 60 := by omega
  simp only [loadState, mergeDefaults_toSnapshot]
  simp only [toSnapshot, Option.getD_some]
  try dsimp only
  rw [hL, hR, applyNaturalDecay_iterate_lastTickAt s (now - 3600000) 60]

/-- Witness for `replay_cap_sixty`: a two-hour absence replays like a
one-hour absence. -/
theorem replay_cap_sixty_witness :
    3600000 ≤ 7200000 - (defaultState 0).lastTickAt ∧
    loadState (some (some (toSnapshot (defaultState 0)))) 7200000 =
      loadState
        (some (some (toSnapshot { defaultState 0 with lastTickAt := 7200000 - 3600000 })))
        7200000 :=
  ⟨by decide, replay_cap_sixty (defaultState 0) 7200000 (by decide)⟩

/-- C6: replay of a well-formed snapshot less than one whole minute stale
applies zero decay steps and changes nothing except `lastTickAt`, which is
set to `now`. -/
theorem replay_under_minute_noop (s : StatVector) (now : Int)
    (h : now - s.lastTickAt < 60000) :
    loadState (some (some (toSnapshot s))) now = some { s with lastTickAt := now } := by
  have h0 : (min 60 ((now - s.lastTickAt) / 60000)).toNat = 0 := by omega
  simp only [loadState, mergeDefaults_toSnapshot]
  simp only [toSnapshot, Option.getD_some]
  rw [h0]
  rfl

/-- Witness for `replay_under_minute_noop` at 59.999 elapsed seconds. -/
theorem replay_under_minute_noop_witness :
    59999 - (defaultState 0).lastTickAt < 60000 ∧
    loadState (some (some (toSnapshot (defaultState 0)))) 59999 =
      some { defaultState 0 with lastTickAt := 59999 } :=
  ⟨by decide, replay_under_minute_noop (defaultState 0) 59999 (by decide)⟩

/-- C7: an absent stored value and a value that fails decoding or the
non-null-object shape check both boot the system into a fresh default
state, never a partially applied snapshot. -/
theorem malformed_snapshot_falls_back (now : Int) :
    initialState none now = defaultState now ∧
    initialState (some none) now = defaultState now := ⟨rfl, rfl⟩

/-- C8: each guarded action invoked with its precondition violated returns
the state unchanged: `feed`, `play`, `toggleSleep`, `heal` at
`health <= 0`; `play` at `energy <= 10`; `heal` at `energy <= 8`. -/
theorem guarded_actions_noop (s : StatVector) :
    (s.health ≤ 0 → feed s = s ∧ play s = s ∧ toggleSleep s = s ∧ heal s = s) ∧
    (s.energy ≤ 10 → play s = s) ∧
    (s.energy ≤ 8 → heal s = s) := by
  refine ⟨fun h => ⟨?_, ?_, ?_, ?_⟩, fun h => ?_, fun h => ?_⟩ <;>
    simp only [feed, play, toggleSleep, heal] <;>
    split_ifs <;> rfl

/-- Witness for `guarded_actions_noop` on a dead, exhausted pet
(in particular `feed` at health 0 leaves the state unchanged). -/
theorem guarded_actions_noop_witness :
    tiredVec.health ≤ 0 ∧ tiredVec.energy ≤ 10 ∧ tiredVec.energy ≤ 8 ∧
    (feed tiredVec = tiredVec ∧ play tiredVec = tiredVec ∧
      toggleSleep tiredVec = tiredVec ∧ heal tiredVec = tiredVec) ∧
    play tiredVec = tiredVec ∧ heal tiredVec = tiredVec :=
  ⟨by decide, by decide, by decide,
    (guarded_actions_noop tiredVec).1 (by decide),
    (guarded_actions_noop tiredVec).2.1 (by decide),
    (guarded_actions_noop tiredVec).2.2 (by decide)⟩

/-- C9: from the awake start `{hunger 0, energy 80, clean 80, health 100}`,
27 decay steps drive `hunger` to exactly 81; every earlier step leaves the
post-delta hunger below 80, and the 27th step is the first on which the
`hunger >= 80` penalty (`health -= 3`) fires. -/
theorem hunger_crosses_eighty_step27 :
    (applyNaturalDecay^[27]
        { health := 100, hunger := 0, energy := 80, clean := 80, mood := "Happy",
          createdAt := 0, lastTickAt := 0, isSleeping := false, paused := false }).hunger
      = 81 ∧
    (((List.range 27).map fun k =>
        (applyNaturalDecay^[k]
          { health := 100, hunger := 0, energy := 80, clean := 80, mood := "Happy",
            createdAt := 0, lastTickAt := 0, isSleeping := false, paused := false }).hunger).all
      fun x => x < 80) = true ∧
    (applyNaturalDecay^[27]
        { health := 100, hunger := 0, energy := 80, clean := 80, mood := "Happy",
          createdAt := 0, lastTickAt := 0, isSleeping := false, paused := false }).health
      = (applyNaturalDecay^[26]
        { health := 100, hunger := 0, energy := 80, clean := 80, mood := "Happy",
          createdAt := 0, lastTickAt := 0, isSleeping := false, paused := false }).health - 3 := by
  refine ⟨by decide, by decide, by decide⟩

/-- C10: the pure decay function touches only the four vitals; it returns
`isSleeping`, `paused`, `createdAt`, `lastTickAt` and `mood` unchanged. -/
theorem decay_touches_only_vitals (s : StatVector) :
    (applyNaturalDecay s).isSleeping = s.isSleeping ∧
    (applyNaturalDecay s).paused = s.paused ∧
    (applyNaturalDecay s).createdAt = s.createdAt ∧
    (applyNaturalDecay s).lastTickAt = s.lastTickAt ∧
    (applyNaturalDecay s).mood = s.mood :=
  applyNaturalDecay_flags s
